import Mathlib

/-!
Verification of the label-app sentiment API orchestration layer.

The repository exposes a pretrained sentiment classifier through Flask
endpoints (src/python-api/sentiment_api.py, the ternary variant, and
src/python-api/sentiment_api_binary.py, the binary variant), plus a
serverless handler.  This file gives a shallow embedding of the
orchestration layer: JSON-like Python values, the label-mapping dicts,
the single-text analyzer endpoint and the batch analyzer endpoint, with
the inference pipeline abstracted as an external collaborator that may
raise.  Collaborator invocations are logged explicitly (the returned
`List String` of texts sent to the pipeline), and the collaborator takes
the number of prior invocations as an extra argument so that statements
about determinism and call counts are expressible.
-/

/-- Python/JSON values as they occur in request bodies and responses.
Floats are modelled as rationals. -/
inductive PyVal where
  | str : String → PyVal
  | int : Int → PyVal
  | num : ℚ → PyVal
  | bool : Bool → PyVal
  | null : PyVal
  | list : List PyVal → PyVal
  | dict : List (String × PyVal) → PyVal

/-- Test corresponding to Python isinstance(v, str). -/
def PyVal.isStr : PyVal → Bool
  | .str _ => true
  | _ => false

/-- Test corresponding to Python isinstance(v, list). -/
def PyVal.isList : PyVal → Bool
  | .list _ => true
  | _ => false

/-- Name of the Python type of a value, used in runtime error messages. -/
def PyVal.typeName : PyVal → String
  | .str _ => "str"
  | .int _ => "int"
  | .num _ => "float"
  | .bool _ => "bool"
  | .null => "NoneType"
  | .list _ => "list"
  | .dict _ => "dict"

/-- Message of the AttributeError raised by evaluating v.strip() on a
non-string value v (CPython renders the type and attribute names inside
single quotation marks; we keep just the words). -/
def stripAttrMsg (v : PyVal) : String :=
  v.typeName ++ " object has no attribute strip"

/-- Python str.strip(): remove leading and trailing whitespace
characters.  Defined over the character list so that it evaluates by
reduction. -/
def pyStrip (s : String) : String :=
  ⟨((s.data.dropWhile Char.isWhitespace).reverse.dropWhile
      Char.isWhitespace).reverse⟩

/-- A single prediction returned by the inference pipeline: a raw label
token and a confidence score. -/
structure Prediction where
  label : String
  score : ℚ

/-- The inference collaborator.  Given the number of pipeline calls made
so far (so a stateful collaborator is expressible) and the text, it
returns the list of predictions, or raises with a message. -/
def Collaborator : Type :=
  Nat → String → Except String (List Prediction)

/-- An HTTP response: status code and JSON body. -/
structure HttpResponse where
  status : Nat
  body : PyVal

/-- Python dict.get(key, default) on a literal dict of pairs. -/
def dictGet {α : Type} (d : List (String × α)) (key : String) (dflt : α) : α :=
  match d.lookup key with
  | some v => v
  | none => dflt

/-- Label mapping dict of sentiment_api.py (ternary variant). -/
def label_mapping : List (String × String) :=
  [("LABEL_0", "positive"), ("LABEL_1", "neutral"), ("LABEL_2", "negative")]

/-- Shorthand for a 400 response with an error body. -/
def resp400 (msg : String) : HttpResponse :=
  ⟨400, .dict [("error", .str msg)]⟩

/-- Shorthand for a 500 response with an error body. -/
def resp500 (msg : String) : HttpResponse :=
  ⟨500, .dict [("error", .str msg)]⟩

/-- The 200 body assembled by analyze_sentiment in sentiment_api.py for a
successful prediction. -/
def successBody (p : Prediction) : PyVal :=
  let mapped := dictGet label_mapping p.label "neutral"
  .dict [("label", .str mapped),
         ("confidence", .num p.score),
         ("original_label", .str p.label),
         ("scores", .dict [(mapped, .num p.score)])]

/-- Indexing results[0] on the pipeline output, as Python does: an empty
list raises IndexError. -/
def firstPrediction : List Prediction → Except String Prediction
  | [] => .error "list index out of range"
  | p :: _ => .ok p

/-- Body of the try block of analyze_sentiment in sentiment_api.py.
The input `data` is the parsed JSON body (`none` when request.get_json()
returned a falsy value); `k` is the number of collaborator calls made
before this request.  Returns the normal response or the raised message,
together with the list of texts sent to the collaborator. -/
def analyze_body (pipe : Collaborator) (k : Nat)
    (data : Option (List (String × PyVal))) :
    Except String HttpResponse × List String :=
  match data with
  | none => (.ok (resp400 "No text provided"), [])
  | some entries =>
    if entries.isEmpty then (.ok (resp400 "No text provided"), [])
    else
      match entries.lookup "text" with
      | none => (.ok (resp400 "No text provided"), [])
      | some (.str s) =>
        if pyStrip s = "" then (.ok (resp400 "Empty text provided"), [])
        else
          match pipe k s with
          | .error m => (.error m, [s])
          | .ok preds =>
            match firstPrediction preds with
            | .error m => (.error m, [s])
            | .ok p => (.ok ⟨200, successBody p⟩, [s])
      | some v => (.error (stripAttrMsg v), [])

/-- The /analyze endpoint of sentiment_api.py: the try body with the
blanket except handler turning any raise into a 500 response. -/
def analyze_sentiment (pipe : Collaborator) (k : Nat)
    (data : Option (List (String × PyVal))) : HttpResponse × List String :=
  match analyze_body pipe k data with
  | (.ok r, log) => (r, log)
  | (.error m, log) => (resp500 ("Error analyzing sentiment: " ++ m), log)

/-- Indexed error record appended by the batch loop. -/
def errRec (i : Nat) (msg : String) : PyVal :=
  .dict [("index", .int i), ("error", .str msg)]

/-- Indexed success record appended by the batch loop of sentiment_api.py. -/
def succRec (i : Nat) (p : Prediction) : PyVal :=
  let mapped := dictGet label_mapping p.label "neutral"
  .dict [("index", .int i),
         ("label", .str mapped),
         ("confidence", .num p.score),
         ("original_label", .str p.label),
         ("scores", .dict [(mapped, .num p.score)])]

/-- One iteration of the batch loop of sentiment_api.py: the isinstance
check, the emptiness check, and the per-item try/except around the
pipeline call.  Returns the record and the texts sent to the pipeline. -/
def batchItem (pipe : Collaborator) (k i : Nat) (t : PyVal) :
    PyVal × List String :=
  match t with
  | .str s =>
    if pyStrip s = "" then (errRec i "Empty text provided", [])
    else
      match pipe k s with
      | .error m => (errRec i ("Error analyzing sentiment: " ++ m), [s])
      | .ok preds =>
        match firstPrediction preds with
        | .error m => (errRec i ("Error analyzing sentiment: " ++ m), [s])
        | .ok p => (succRec i p, [s])
  | _ => (errRec i "Text must be a string", [])

/-- The batch loop, generic in the per-item step so the ternary and the
binary variants share it: processes the texts in order, numbering them
from `i` and threading the collaborator call counter from `k`. -/
def batchLoop (item : Nat → Nat → PyVal → PyVal × List String)
    (k i : Nat) : List PyVal → List PyVal × List String
  | [] => ([], [])
  | t :: ts =>
    let r := item k i t
    let rest := batchLoop item (k + r.2.length) (i + 1) ts
    (r.1 :: rest.1, r.2 ++ rest.2)

/-- The /analyze-batch endpoint body of sentiment_api.py: the guards on
the `texts` field followed by the loop.  Nothing in the loop can raise,
but the structure of the outer try block is kept so that the 500 branch
of the handler is represented. -/
def analyze_batch_body (item : Nat → Nat → PyVal → PyVal × List String)
    (k : Nat) (data : Option (List (String × PyVal))) :
    Except String (HttpResponse × List String) :=
  match data with
  | none => .ok (resp400 "No texts provided", [])
  | some entries =>
    if entries.isEmpty then .ok (resp400 "No texts provided", [])
    else
      match entries.lookup "texts" with
      | none => .ok (resp400 "No texts provided", [])
      | some (.list ts) =>
        if ts.length = 0 then .ok (resp400 "Empty texts list provided", [])
        else
          let r := batchLoop item k 0 ts
          .ok (⟨200, .dict [("results", .list r.1)]⟩, r.2)
      | some _ => .ok (resp400 "Texts must be a list", [])

/-- The /analyze-batch endpoint of sentiment_api.py: try body plus the
blanket except handler. -/
def analyze_sentiment_batch (pipe : Collaborator) (k : Nat)
    (data : Option (List (String × PyVal))) : HttpResponse × List String :=
  match analyze_batch_body (batchItem pipe) k data with
  | .ok r => r
  | .error m => (resp500 ("Error analyzing sentiment batch: " ++ m), [])

/-- Extract a field of a JSON-object response body. -/
def bodyField (r : HttpResponse) (key : String) : Option PyVal :=
  match r.body with
  | .dict es => es.lookup key
  | _ => none

/-- Extract the "index" field of a batch record. -/
def recIndex (v : PyVal) : Option PyVal :=
  match v with
  | .dict es => es.lookup "index"
  | _ => none

namespace Binary

/-- Label mapping dict of sentiment_api_binary.py (same as the ternary
variant, under the name original_label_mapping). -/
def original_label_mapping : List (String × String) :=
  [("LABEL_0", "positive"), ("LABEL_1", "neutral"), ("LABEL_2", "negative")]

/-- Binary classification mapping: neutral is combined with negative. -/
def binary_label_mapping : List (String × String) :=
  [("positive", "positive"), ("neutral", "negative"), ("negative", "negative")]

/-- Binary numeric mapping: 1 for positive, 0 for negative. -/
def binary_numeric_mapping : List (String × Int) :=
  [("positive", 1), ("negative", 0)]

/-- The mapped ternary label computed by the binary handlers. -/
def mappedLabel (original : String) : String :=
  dictGet original_label_mapping original "neutral"

/-- The binary label computed by the binary handlers. -/
def binaryLabel (original : String) : String :=
  dictGet binary_label_mapping (mappedLabel original) "negative"

/-- The numeric label computed by the binary handlers. -/
def numericLabel (original : String) : Int :=
  dictGet binary_numeric_mapping (binaryLabel original) 0

/-- The 200 body assembled by analyze_sentiment in
sentiment_api_binary.py for a successful prediction. -/
def successBody (p : Prediction) : PyVal :=
  .dict [("label", .str (binaryLabel p.label)),
         ("numeric_label", .int (numericLabel p.label)),
         ("confidence", .num p.score),
         ("original_label", .str p.label),
         ("original_mapped_label", .str (mappedLabel p.label)),
         ("scores", .dict [(binaryLabel p.label, .num p.score)])]

/-- Body of the try block of analyze_sentiment in
sentiment_api_binary.py. -/
def analyze_body (pipe : Collaborator) (k : Nat)
    (data : Option (List (String × PyVal))) :
    Except String HttpResponse × List String :=
  match data with
  | none => (.ok (resp400 "No text provided"), [])
  | some entries =>
    if entries.isEmpty then (.ok (resp400 "No text provided"), [])
    else
      match entries.lookup "text" with
      | none => (.ok (resp400 "No text provided"), [])
      | some (.str s) =>
        if pyStrip s = "" then (.ok (resp400 "Empty text provided"), [])
        else
          match pipe k s with
          | .error m => (.error m, [s])
          | .ok preds =>
            match firstPrediction preds with
            | .error m => (.error m, [s])
            | .ok p => (.ok ⟨200, successBody p⟩, [s])
      | some v => (.error (stripAttrMsg v), [])

/-- The /analyze endpoint of sentiment_api_binary.py. -/
def analyze_sentiment (pipe : Collaborator) (k : Nat)
    (data : Option (List (String × PyVal))) : HttpResponse × List String :=
  match analyze_body pipe k data with
  | (.ok r, log) => (r, log)
  | (.error m, log) => (resp500 ("Error analyzing sentiment: " ++ m), log)

/-- Indexed success record appended by the batch loop of
sentiment_api_binary.py. -/
def succRec (i : Nat) (p : Prediction) : PyVal :=
  .dict [("index", .int i),
         ("label", .str (binaryLabel p.label)),
         ("numeric_label", .int (numericLabel p.label)),
         ("confidence", .num p.score),
         ("original_label", .str p.label),
         ("original_mapped_label", .str (mappedLabel p.label)),
         ("scores", .dict [(binaryLabel p.label, .num p.score)])]

/-- One iteration of the batch loop of sentiment_api_binary.py. -/
def batchItem (pipe : Collaborator) (k i : Nat) (t : PyVal) :
    PyVal × List String :=
  match t with
  | .str s =>
    if pyStrip s = "" then (errRec i "Empty text provided", [])
    else
      match pipe k s with
      | .error m => (errRec i ("Error analyzing sentiment: " ++ m), [s])
      | .ok preds =>
        match firstPrediction preds with
        | .error m => (errRec i ("Error analyzing sentiment: " ++ m), [s])
        | .ok p => (succRec i p, [s])
  | _ => (errRec i "Text must be a string", [])

/-- The /analyze-batch endpoint of sentiment_api_binary.py: the guards
and the loop are identical to the ternary variant except for the per-item
record. -/
def analyze_sentiment_batch (pipe : Collaborator) (k : Nat)
    (data : Option (List (String × PyVal))) : HttpResponse × List String :=
  match analyze_batch_body (Binary.batchItem pipe) k data with
  | .ok r => r
  | .error m => (resp500 ("Error analyzing sentiment batch: " ++ m), [])

end Binary

/-- A collaborator that ignores the call counter and always succeeds
with one fixed prediction, used to instantiate theorems. -/
def constPipe : Collaborator :=
  fun _ _ => .ok [⟨"LABEL_0", 9 / 10⟩]

/-- A collaborator that always raises, used to instantiate theorems. -/
def failPipe : Collaborator :=
  fun _ _ => .error "model error"

/-- Lookup success implies the association list is non-empty. -/
theorem lookup_isEmpty_false {α : Type} {es : List (String × α)} {key : String}
    {v : α} (h : es.lookup key = some v) : es.isEmpty = false := by
  cases es with
  | nil => simp [List.lookup] at h
  | cons e es => rfl

/-- The ternary label mapper always lands in the fixed label set. -/
theorem label_mapping_mem (t : String) :
    dictGet label_mapping t "neutral" = "positive" ∨
    dictGet label_mapping t "neutral" = "neutral" ∨
    dictGet label_mapping t "neutral" = "negative" := by
  by_cases h0 : t = "LABEL_0"
  · subst h0; left; rfl
  by_cases h1 : t = "LABEL_1"
  · subst h1; right; left; rfl
  by_cases h2 : t = "LABEL_2"
  · subst h2; right; right; rfl
  right; left
  have e0 : (t == "LABEL_0") = false := beq_eq_false_iff_ne.mpr h0
  have e1 : (t == "LABEL_1") = false := beq_eq_false_iff_ne.mpr h1
  have e2 : (t == "LABEL_2") = false := beq_eq_false_iff_ne.mpr h2
  simp [dictGet, label_mapping, List.lookup, e0, e1, e2]

/-- The batch loop produces exactly one record per input element. -/
theorem batchLoop_length (item : Nat → Nat → PyVal → PyVal × List String)
    (k i : Nat) (ts : List PyVal) :
    (batchLoop item k i ts).1.length = ts.length := by
  induction ts generalizing k i with
  | nil => rfl
  | cons t ts ih => simp [batchLoop, ih]

/-- The record at position j of the batch loop output is the item step
applied to input element j, numbered i + j, at some value of the call
counter. -/
theorem batchLoop_get (item : Nat → Nat → PyVal → PyVal × List String)
    (ts : List PyVal) :
    ∀ k i j t, ts[j]? = some t →
      ∃ k2, (batchLoop item k i ts).1[j]? = some (item k2 (i + j) t).1 := by
  induction ts with
  | nil => intro k i j t h; simp at h
  | cons t0 ts ih =>
    intro k i j t h
    match j with
    | 0 =>
      simp at h
      subst h
      exact ⟨k, by simp [batchLoop]⟩
    | j + 1 =>
      simp at h
      obtain ⟨k2, hk2⟩ := ih (k + (item k i t0).2.length) (i + 1) j t h
      refine ⟨k2, ?_⟩
      simpa [batchLoop, Nat.add_assoc, Nat.add_comm 1 j] using hk2

/-- Every record produced by the ternary batch item step carries the
index it was given. -/
theorem batchItem_index (pipe : Collaborator) (k i : Nat) (t : PyVal) :
    recIndex (batchItem pipe k i t).1 = some (.int i) := by
  cases t <;> simp only [batchItem] <;>
    try simp [errRec, recIndex, List.lookup]
  case str s =>
    by_cases h : pyStrip s = ""
    · simp [h, errRec, recIndex, List.lookup]
    · simp only [h, if_false]
      cases hp : pipe k s with
      | error m => simp [errRec, recIndex, List.lookup]
      | ok preds =>
        cases preds with
        | nil => simp [firstPrediction, errRec, recIndex, List.lookup]
        | cons p rest => simp [firstPrediction, succRec, recIndex, List.lookup]

/-- Every record produced by the binary batch item step carries the
index it was given. -/
theorem binary_batchItem_index (pipe : Collaborator) (k i : Nat) (t : PyVal) :
    recIndex (Binary.batchItem pipe k i t).1 = some (.int i) := by
  cases t <;> simp only [Binary.batchItem] <;>
    try simp [errRec, recIndex, List.lookup]
  case str s =>
    by_cases h : pyStrip s = ""
    · simp [h, errRec, recIndex, List.lookup]
    · simp only [h, if_false]
      cases hp : pipe k s with
      | error m => simp [errRec, recIndex, List.lookup]
      | ok preds =>
        cases preds with
        | nil => simp [firstPrediction, errRec, recIndex, List.lookup]
        | cons p rest => simp [firstPrediction, Binary.succRec, recIndex, List.lookup]

/-- On a non-empty texts list the batch body reaches the loop and
returns 200 with its records. -/
theorem analyze_batch_body_200
    (item : Nat → Nat → PyVal → PyVal × List String) (k : Nat)
    (entries : List (String × PyVal)) (ts : List PyVal)
    (h1 : entries.lookup "texts" = some (.list ts)) (h2 : ts ≠ []) :
    analyze_batch_body item k (some entries)
      = .ok (⟨200, .dict [("results", .list (batchLoop item k 0 ts).1)]⟩,
             (batchLoop item k 0 ts).2) := by
  have he := lookup_isEmpty_false h1
  have hl : ts.length ≠ 0 := by simpa using h2
  simp [analyze_batch_body, he, h1, hl]

/-- The ternary label computed by the binary variant lands in the fixed
label set. -/
theorem binary_mappedLabel_mem (t : String) :
    Binary.mappedLabel t = "positive" ∨ Binary.mappedLabel t = "neutral" ∨
    Binary.mappedLabel t = "negative" := by
  by_cases h0 : t = "LABEL_0"
  · subst h0; left; rfl
  by_cases h1 : t = "LABEL_1"
  · subst h1; right; left; rfl
  by_cases h2 : t = "LABEL_2"
  · subst h2; right; right; rfl
  right; left
  have e0 : (t == "LABEL_0") = false := beq_eq_false_iff_ne.mpr h0
  have e1 : (t == "LABEL_1") = false := beq_eq_false_iff_ne.mpr h1
  have e2 : (t == "LABEL_2") = false := beq_eq_false_iff_ne.mpr h2
  simp [Binary.mappedLabel, dictGet, Binary.original_label_mapping,
    List.lookup, e0, e1, e2]

/-- The binary label is positive or negative, and its numeric code is 1
exactly on positive. -/
theorem binaryLabel_cases (t : String) :
    (Binary.binaryLabel t = "positive" ∧ Binary.numericLabel t = 1) ∨
    (Binary.binaryLabel t = "negative" ∧ Binary.numericLabel t = 0) := by
  rcases binary_mappedLabel_mem t with h | h | h <;>
    simp [Binary.binaryLabel, Binary.numericLabel, Binary.binaryLabel,
      Binary.binary_label_mapping, Binary.binary_numeric_mapping, dictGet,
      List.lookup, h]

/-- C6: the ternary label mapper is a total function on raw classifier
tokens, mapping LABEL_0 to positive, LABEL_1 to neutral, LABEL_2 to
negative, and every other token to the default neutral; being a Lean
function on all of String, it is total, side-effect free and never
fails. -/
theorem c6_label_mapping_total :
    dictGet label_mapping "LABEL_0" "neutral" = "positive" ∧
    dictGet label_mapping "LABEL_1" "neutral" = "neutral" ∧
    dictGet label_mapping "LABEL_2" "neutral" = "negative" ∧
    ∀ t : String, t ≠ "LABEL_0" → t ≠ "LABEL_1" → t ≠ "LABEL_2" →
      dictGet label_mapping t "neutral" = "neutral" := by
  refine ⟨rfl, rfl, rfl, ?_⟩
  intro t h0 h1 h2
  have e0 : (t == "LABEL_0") = false := beq_eq_false_iff_ne.mpr h0
  have e1 : (t == "LABEL_1") = false := beq_eq_false_iff_ne.mpr h1
  have e2 : (t == "LABEL_2") = false := beq_eq_false_iff_ne.mpr h2
  simp [dictGet, label_mapping, List.lookup, e0, e1, e2]

/-- Witness for C6 at the concrete unknown token UNKNOWN. -/
theorem c6_witness : dictGet label_mapping "UNKNOWN" "neutral" = "neutral" :=
  c6_label_mapping_total.2.2.2 "UNKNOWN" (by decide) (by decide) (by decide)

/-- C4: a request whose body lacks a text field gets 400 with error
"No text provided", a request whose text is a string that trims to empty
gets 400 with error "Empty text provided", and in both cases the
collaborator call log is empty. -/
theorem c4_analyze_validation (pipe : Collaborator) (k : Nat) :
    (∀ d : Option (List (String × PyVal)),
        (∀ entries, d = some entries → entries.lookup "text" = none) →
        analyze_sentiment pipe k d = (resp400 "No text provided", [])) ∧
    (∀ (entries : List (String × PyVal)) (s : String),
        entries.lookup "text" = some (.str s) → pyStrip s = "" →
        analyze_sentiment pipe k (some entries)
          = (resp400 "Empty text provided", [])) := by
  constructor
  · intro d hd
    cases d with
    | none => rfl
    | some entries =>
      have h := hd entries rfl
      cases he : entries.isEmpty with
      | true => simp [analyze_sentiment, analyze_body, he]
      | false => simp [analyze_sentiment, analyze_body, he, h]
  · intro entries s h1 h2
    have he := lookup_isEmpty_false h1
    simp [analyze_sentiment, analyze_body, he, h1, h2]

/-- Witness for C4 at a concrete whitespace-only text. -/
theorem c4_witness :
    analyze_sentiment constPipe 0 (some [("text", .str "   ")])
      = (resp400 "Empty text provided", []) :=
  (c4_analyze_validation constPipe 0).2 [("text", .str "   ")] "   "
    rfl (by decide)

/-- C5: on a valid non-empty text, if the collaborator raises with
message m, the response is 500 with error "Error analyzing sentiment: "
followed by m, and the collaborator was invoked exactly once, on that
text. -/
theorem c5_analyze_inference_error (pipe : Collaborator) (k : Nat)
    (entries : List (String × PyVal)) (s m : String)
    (h1 : entries.lookup "text" = some (.str s))
    (h2 : pyStrip s ≠ "")
    (h3 : pipe k s = .error m) :
    analyze_sentiment pipe k (some entries)
      = (resp500 ("Error analyzing sentiment: " ++ m), [s]) := by
  have he := lookup_isEmpty_false h1
  simp [analyze_sentiment, analyze_body, he, h1, h2, h3]

/-- Witness for C5 at a concrete text and an always-raising
collaborator. -/
theorem c5_witness :
    analyze_sentiment failPipe 0 (some [("text", .str "hello")])
      = (resp500 ("Error analyzing sentiment: " ++ "model error"), ["hello"]) :=
  c5_analyze_inference_error failPipe 0 [("text", .str "hello")]
    "hello" "model error" rfl (by decide) rfl

/-- C8: on a valid non-empty text with a successful collaborator call,
the response is 200, its label is the mapped label and lies in the fixed
ternary label set, and its confidence is the collaborator score passed
through unchanged, so it lies in [0,1] whenever the score does. -/
theorem c8_analyze_success (pipe : Collaborator) (k : Nat)
    (entries : List (String × PyVal)) (s : String) (p : Prediction)
    (rest : List Prediction)
    (h1 : entries.lookup "text" = some (.str s))
    (h2 : pyStrip s ≠ "")
    (h3 : pipe k s = .ok (p :: rest))
    (hs : 0 ≤ p.score ∧ p.score ≤ 1) :
    (analyze_sentiment pipe k (some entries)).1 = ⟨200, successBody p⟩ ∧
    bodyField ⟨200, successBody p⟩ "label"
      = some (.str (dictGet label_mapping p.label "neutral")) ∧
    (dictGet label_mapping p.label "neutral" = "positive" ∨
     dictGet label_mapping p.label "neutral" = "neutral" ∨
     dictGet label_mapping p.label "neutral" = "negative") ∧
    bodyField ⟨200, successBody p⟩ "confidence" = some (.num p.score) ∧
    0 ≤ p.score ∧ p.score ≤ 1 := by
  have he := lookup_isEmpty_false h1
  refine ⟨?_, rfl, label_mapping_mem p.label, rfl, hs.1, hs.2⟩
  simp [analyze_sentiment, analyze_body, he, h1, h2, h3, firstPrediction]

/-- Witness for C8 at a concrete text and a collaborator returning
LABEL_0 with score 9/10. -/
theorem c8_witness :
    (analyze_sentiment constPipe 0 (some [("text", .str "hello")])).1
      = ⟨200, successBody ⟨"LABEL_0", 9 / 10⟩⟩ ∧
    bodyField ⟨200, successBody ⟨"LABEL_0", 9 / 10⟩⟩ "label"
      = some (.str (dictGet label_mapping "LABEL_0" "neutral")) ∧
    (dictGet label_mapping "LABEL_0" "neutral" = "positive" ∨
     dictGet label_mapping "LABEL_0" "neutral" = "neutral" ∨
     dictGet label_mapping "LABEL_0" "neutral" = "negative") ∧
    bodyField ⟨200, successBody ⟨"LABEL_0", 9 / 10⟩⟩ "confidence"
      = some (.num (9 / 10)) ∧
    (0 : ℚ) ≤ 9 / 10 ∧ (9 / 10 : ℚ) ≤ 1 :=
  c8_analyze_success constPipe 0 [("text", .str "hello")] "hello"
    ⟨"LABEL_0", 9 / 10⟩ [] rfl (by decide) rfl (by norm_num)

/-- C9: with a collaborator whose answer does not depend on the call
counter, two requests with the same body (issued at different points of
the call history) get identical responses, in particular the same label
and the same numeric confidence. -/
theorem c9_analyze_idempotent (pipe : Collaborator)
    (hdet : ∀ n m : Nat, ∀ s : String, pipe n s = pipe m s)
    (k1 k2 : Nat) (d : Option (List (String × PyVal))) :
    (analyze_sentiment pipe k1 d).1 = (analyze_sentiment pipe k2 d).1 := by
  have hb : analyze_body pipe k1 d = analyze_body pipe k2 d := by
    unfold analyze_body
    simp only [hdet k1 k2]
  unfold analyze_sentiment
  rw [hb]

/-- Witness for C9 at a concrete body and the constant collaborator. -/
theorem c9_witness :
    (analyze_sentiment constPipe 0 (some [("text", .str "hi")])).1
      = (analyze_sentiment constPipe 5 (some [("text", .str "hi")])).1 :=
  c9_analyze_idempotent constPipe (fun _ _ _ => rfl) 0 5
    (some [("text", .str "hi")])

/-- C10: a text field holding a non-string value makes the single-item
endpoint answer 500 with the AttributeError message of the failed strip
call wrapped as "Error analyzing sentiment: ...", with the collaborator
never invoked; the same value at the batch endpoint yields the per-item
record "Text must be a string" instead. -/
theorem c10_analyze_nonstring (pipe : Collaborator) (k : Nat)
    (entries : List (String × PyVal)) (v : PyVal)
    (h1 : entries.lookup "text" = some v)
    (h2 : v.isStr = false) :
    analyze_sentiment pipe k (some entries)
      = (resp500 ("Error analyzing sentiment: " ++ stripAttrMsg v), []) ∧
    ∀ i, (batchItem pipe k i v).1 = errRec i "Text must be a string" := by
  have he := lookup_isEmpty_false h1
  constructor
  · cases v <;> simp_all [analyze_sentiment, analyze_body, PyVal.isStr]
  · intro i
    cases v <;> simp_all [batchItem, PyVal.isStr]

/-- Witness for C10 at the concrete non-string value 123. -/
theorem c10_witness :
    analyze_sentiment constPipe 0 (some [("text", .int 123)])
      = (resp500 ("Error analyzing sentiment: " ++ stripAttrMsg (.int 123)),
         []) ∧
    (batchItem constPipe 0 2 (.int 123)).1 = errRec 2 "Text must be a string" := by
  have h := c10_analyze_nonstring constPipe 0 [("text", .int 123)]
    (.int 123) rfl rfl
  exact ⟨h.1, h.2 2⟩

/-- C2: each batch element is handled independently by the per-item
step: a non-string gets the indexed error "Text must be a string", a
string trimming to empty gets the indexed error "Empty text provided",
otherwise a successful collaborator call gives the indexed success
record with the mapped label, and a raising collaborator gives an
indexed error record carrying its message. -/
theorem c2_batch_item_cases (pipe : Collaborator) (k i : Nat) :
    (∀ t : PyVal, t.isStr = false →
        (batchItem pipe k i t).1 = errRec i "Text must be a string") ∧
    (∀ s : String, pyStrip s = "" →
        (batchItem pipe k i (.str s)).1 = errRec i "Empty text provided") ∧
    (∀ (s : String) (p : Prediction) (rest : List Prediction),
        pyStrip s ≠ "" → pipe k s = .ok (p :: rest) →
        (batchItem pipe k i (.str s)).1 = succRec i p) ∧
    (∀ s m : String, pyStrip s ≠ "" → pipe k s = .error m →
        (batchItem pipe k i (.str s)).1
          = errRec i ("Error analyzing sentiment: " ++ m)) := by
  refine ⟨?_, ?_, ?_, ?_⟩
  · intro t ht
    cases t <;> simp_all [batchItem, PyVal.isStr]
  · intro s hs
    simp [batchItem, hs]
  · intro s p rest hs hp
    simp [batchItem, hs, hp, firstPrediction]
  · intro s m hs hp
    simp [batchItem, hs, hp]

/-- Witness for C2 at the concrete empty string element. -/
theorem c2_witness :
    (batchItem constPipe 0 1 (.str "")).1 = errRec 1 "Empty text provided" :=
  (c2_batch_item_cases constPipe 0 1).2.1 "" (by decide)

/-- C3: the batch endpoint answers 400 "No texts provided" when the
texts field is missing, 400 "Texts must be a list" when it is present
but not a list, 400 "Empty texts list provided" when it is an empty
list, and on every non-empty list the status is 200, so the top-level
500 branch is unreachable there. -/
theorem c3_batch_toplevel (pipe : Collaborator) (k : Nat) :
    (∀ d : Option (List (String × PyVal)),
        (∀ entries, d = some entries → entries.lookup "texts" = none) →
        analyze_sentiment_batch pipe k d = (resp400 "No texts provided", [])) ∧
    (∀ (entries : List (String × PyVal)) (v : PyVal),
        entries.lookup "texts" = some v → v.isList = false →
        analyze_sentiment_batch pipe k (some entries)
          = (resp400 "Texts must be a list", [])) ∧
    (∀ entries : List (String × PyVal),
        entries.lookup "texts" = some (.list []) →
        analyze_sentiment_batch pipe k (some entries)
          = (resp400 "Empty texts list provided", [])) ∧
    (∀ (entries : List (String × PyVal)) (ts : List PyVal),
        entries.lookup "texts" = some (.list ts) → ts ≠ [] →
        (analyze_sentiment_batch pipe k (some entries)).1.status = 200) := by
  refine ⟨?_, ?_, ?_, ?_⟩
  · intro d hd
    cases d with
    | none => rfl
    | some entries =>
      have h := hd entries rfl
      cases he : entries.isEmpty with
      | true => simp [analyze_sentiment_batch, analyze_batch_body, he]
      | false => simp [analyze_sentiment_batch, analyze_batch_body, he, h]
  · intro entries v h1 h2
    have he := lookup_isEmpty_false h1
    cases v <;>
      simp_all [analyze_sentiment_batch, analyze_batch_body, PyVal.isList]
  · intro entries h1
    have he := lookup_isEmpty_false h1
    simp [analyze_sentiment_batch, analyze_batch_body, he, h1]
  · intro entries ts h1 h2
    have hb := analyze_batch_body_200 (batchItem pipe) k entries ts h1 h2
    simp [analyze_sentiment_batch, hb]

/-- Witness for C3 at a concrete singleton batch. -/
theorem c3_witness :
    (analyze_sentiment_batch constPipe 0
        (some [("texts", .list [.str "good"])])).1.status = 200 :=
  (c3_batch_toplevel constPipe 0).2.2.2 [("texts", .list [.str "good"])]
    [.str "good"] rfl (by simp)

/-- C1: for a non-empty texts list of length N, both batch endpoints
answer 200 with exactly N records, the record at position j carries
index j and is exactly the per-item step applied to input element j (at
some value of the collaborator call counter), so no element can remove,
reorder or prevent the processing of another. -/
theorem c1_batch_ordering (pipe : Collaborator) (k : Nat)
    (entries : List (String × PyVal)) (ts : List PyVal)
    (h1 : entries.lookup "texts" = some (.list ts)) (h2 : ts ≠ []) :
    (∃ rs : List PyVal,
      (analyze_sentiment_batch pipe k (some entries)).1
        = ⟨200, .dict [("results", .list rs)]⟩ ∧
      rs.length = ts.length ∧
      ∀ j t, ts[j]? = some t → ∃ k2,
        rs[j]? = some (batchItem pipe k2 j t).1 ∧
        recIndex (batchItem pipe k2 j t).1 = some (.int j)) ∧
    (∃ rs : List PyVal,
      (Binary.analyze_sentiment_batch pipe k (some entries)).1
        = ⟨200, .dict [("results", .list rs)]⟩ ∧
      rs.length = ts.length ∧
      ∀ j t, ts[j]? = some t → ∃ k2,
        rs[j]? = some (Binary.batchItem pipe k2 j t).1 ∧
        recIndex (Binary.batchItem pipe k2 j t).1 = some (.int j)) := by
  constructor
  · refine ⟨(batchLoop (batchItem pipe) k 0 ts).1, ?_,
      batchLoop_length _ _ _ _, ?_⟩
    · simp [analyze_sentiment_batch,
        analyze_batch_body_200 (batchItem pipe) k entries ts h1 h2]
    · intro j t ht
      obtain ⟨k2, hk2⟩ := batchLoop_get (batchItem pipe) ts k 0 j t ht
      exact ⟨k2, by simpa using hk2, batchItem_index pipe k2 j t⟩
  · refine ⟨(batchLoop (Binary.batchItem pipe) k 0 ts).1, ?_,
      batchLoop_length _ _ _ _, ?_⟩
    · simp [Binary.analyze_sentiment_batch,
        analyze_batch_body_200 (Binary.batchItem pipe) k entries ts h1 h2]
    · intro j t ht
      obtain ⟨k2, hk2⟩ := batchLoop_get (Binary.batchItem pipe) ts k 0 j t ht
      exact ⟨k2, by simpa using hk2, binary_batchItem_index pipe k2 j t⟩

/-- Witness for C1 at a concrete singleton batch. -/
theorem c1_witness :
    (∃ rs : List PyVal,
      (analyze_sentiment_batch constPipe 0
          (some [("texts", .list [.str "good"])])).1
        = ⟨200, .dict [("results", .list rs)]⟩ ∧
      rs.length = ([PyVal.str "good"] : List PyVal).length ∧
      ∀ j t, ([PyVal.str "good"] : List PyVal)[j]? = some t → ∃ k2,
        rs[j]? = some (batchItem constPipe k2 j t).1 ∧
        recIndex (batchItem constPipe k2 j t).1 = some (.int j)) ∧
    (∃ rs : List PyVal,
      (Binary.analyze_sentiment_batch constPipe 0
          (some [("texts", .list [.str "good"])])).1
        = ⟨200, .dict [("results", .list rs)]⟩ ∧
      rs.length = ([PyVal.str "good"] : List PyVal).length ∧
      ∀ j t, ([PyVal.str "good"] : List PyVal)[j]? = some t → ∃ k2,
        rs[j]? = some (Binary.batchItem constPipe k2 j t).1 ∧
        recIndex (Binary.batchItem constPipe k2 j t).1 = some (.int j)) :=
  c1_batch_ordering constPipe 0 [("texts", .list [.str "good"])]
    [.str "good"] rfl (by simp)

/-- C7: the binary mapping is the ternary mapping followed by the
collapse of neutral into negative, the numeric code is 1 exactly on
positive, and every successful binary /analyze response therefore has a
label in the set of positive and negative with numeric_label 1 exactly
when the label is positive. -/
theorem c7_binary_mapping (pipe : Collaborator) (k : Nat) :
    (∀ tok : String,
        Binary.binaryLabel tok
          = dictGet Binary.binary_label_mapping
              (dictGet Binary.original_label_mapping tok "neutral")
              "negative" ∧
        (Binary.binaryLabel tok = "positive" ∨
         Binary.binaryLabel tok = "negative") ∧
        (Binary.numericLabel tok = 1 ↔ Binary.binaryLabel tok = "positive")) ∧
    (∀ (entries : List (String × PyVal)) (s : String) (p : Prediction)
        (rest : List Prediction),
        entries.lookup "text" = some (.str s) → pyStrip s ≠ "" →
        pipe k s = .ok (p :: rest) →
        (Binary.analyze_sentiment pipe k (some entries)).1.status = 200 ∧
        bodyField (Binary.analyze_sentiment pipe k (some entries)).1 "label"
          = some (.str (Binary.binaryLabel p.label)) ∧
        bodyField (Binary.analyze_sentiment pipe k (some entries)).1
            "numeric_label" = some (.int (Binary.numericLabel p.label)) ∧
        (Binary.binaryLabel p.label = "positive" ∨
         Binary.binaryLabel p.label = "negative") ∧
        (Binary.numericLabel p.label = 1 ↔
         Binary.binaryLabel p.label = "positive")) := by
  have key : ∀ tok : String,
      (Binary.binaryLabel tok = "positive" ∨
       Binary.binaryLabel tok = "negative") ∧
      (Binary.numericLabel tok = 1 ↔ Binary.binaryLabel tok = "positive") := by
    intro tok
    rcases binaryLabel_cases tok with ⟨hb, hn⟩ | ⟨hb, hn⟩ <;>
      rw [hb, hn] <;> simp
  constructor
  · intro tok
    exact ⟨rfl, (key tok).1, (key tok).2⟩
  · intro entries s p rest h1 h2 h3
    have he := lookup_isEmpty_false h1
    have hr : Binary.analyze_sentiment pipe k (some entries)
        = (⟨200, Binary.successBody p⟩, [s]) := by
      simp [Binary.analyze_sentiment, Binary.analyze_body, he, h1, h2, h3,
        firstPrediction]
    rw [hr]
    exact ⟨rfl, rfl, rfl, (key p.label).1, (key p.label).2⟩

/-- Witness for C7 at the token LABEL_1, which the ternary map sends to
neutral and the binary map collapses to negative. -/
theorem c7_witness :
    Binary.binaryLabel "LABEL_1"
      = dictGet Binary.binary_label_mapping
          (dictGet Binary.original_label_mapping "LABEL_1" "neutral")
          "negative" ∧
    (Binary.binaryLabel "LABEL_1" = "positive" ∨
     Binary.binaryLabel "LABEL_1" = "negative") ∧
    (Binary.numericLabel "LABEL_1" = 1 ↔
     Binary.binaryLabel "LABEL_1" = "positive") :=
  (c7_binary_mapping constPipe 0).1 "LABEL_1"
